import Mathlib

/-!
Shallow embedding of the backend server of the DocBrains document-analysis
application (src/backend/server.py).

The document store (a MongoDB collection queried and updated by the string
field `id`) is modelled as a list of documents together with a list of chat
messages; `find_one`, `update_one`, `delete_one` and `insert_one` on the
collection become `List.find?`, an update of the first matching element,
removal of the first matching element, and appending.

Remote calls (the Gemini transcription, summary, schema and chat calls) and
the local PyPDF2 parse are external effects: each is modelled by a parameter
of type `Option _` giving the outcome the environment would return, where
`none` stands for a raised exception and `some v` for a normal return of `v`.
Endpoint handlers become pure functions from the store, the request and the
outcomes of their external calls to a result carrying the HTTP status code,
the new store, and observability flags recording which external calls were
actually issued.

Timestamps are ISO strings and are passed in as opaque parameters.
-/

/-- The persistent document record (Pydantic model `DocumentUpload` in
server.py): one uploaded file with its derived artifacts.  Optional fields
model Python `Optional[str]` values that may be `None`. -/
structure Document where
  id : String
  filename : String
  content_type : String
  file_size : Nat
  extracted_text : Option String
  summary_text : Option String
  summary_type : Option String
  mindmap_schema : Option String
  schema_type : Option String
  created_at : String
  updated_at : String
  deriving Repr, DecidableEq

/-- One chat turn (Pydantic model `ChatMessage` in server.py), append-only. -/
structure ChatMessage where
  id : String
  document_id : Option String
  message : String
  response : String
  created_at : String
  deriving Repr, DecidableEq

/-- The persistent state: the `documents` collection and the `chat_messages`
collection. -/
structure Store where
  documents : List Document
  chat_messages : List ChatMessage
  deriving Repr, DecidableEq

/-- Python truthiness of an `Optional[str]` value: `None` and the empty
string are falsy (`if not document.get(...)` in server.py). -/
def truthy : Option String → Bool
  | none => false
  | some s => s ≠ ""

/-- Request body of POST /generate-summary (`SummaryRequest`). -/
structure SummaryRequest where
  document_id : String
  summary_type : String
  accuracy_level : String
  deriving Repr, DecidableEq

/-- Request body of POST /generate-schema (`SchemaRequest`). -/
structure SchemaRequest where
  document_id : String
  schema_type : String
  deriving Repr, DecidableEq

/-- Request body of POST /chat (`ChatRequest`). -/
structure ChatRequest where
  document_id : Option String
  message : String
  context : Option String
  deriving Repr, DecidableEq

/-- The upload size limit checked in `upload_document`:
`len(contents) > 100 * 1024 * 1024` raises 413. -/
def MAX_UPLOAD_SIZE : Nat := 100 * 1024 * 1024

/-- ASCII whitespace, the effective character class of Python `str.strip()`
on the texts at hand. -/
def isPySpace (c : Char) : Bool :=
  c == ' ' || c == '\t' || c == '\n' || c == '\r' || c == '\x0b' || c == '\x0c'

/-- Python `str.strip()`: drop whitespace from both ends. -/
def pyStrip (s : String) : String :=
  String.mk (((s.data.dropWhile isPySpace).reverse.dropWhile isPySpace).reverse)

/-- `p` is an initial segment of `s`, character by character. -/
def charsStartWith : List Char → List Char → Bool
  | [], _ => true
  | _ :: _, [] => false
  | p :: ps, c :: cs => p == c && charsStartWith ps cs

/-- Python `str.startswith(p)`. -/
def strStartsWith (s p : String) : Bool := charsStartWith p.data s.data

/-- `extract_text_from_pdf` (server.py lines 94-104): concatenate the text
of every page followed by a newline, then strip the result; any exception
during parsing is caught and yields the empty string.  The PyPDF2 parse
outcome is the parameter: `none` is a raised exception, `some pages` the
per-page `extract_text()` results. -/
def extract_text_from_pdf (parseOutcome : Option (List String)) : String :=
  match parseOutcome with
  | none => ""
  | some pages => pyStrip (String.join (pages.map (fun p => p ++ "\n")))

/-- Input to the upload endpoint: the multipart file plus the outcomes of
the two possible external calls (`none` models a raised exception in the
remote call case).  `contents_size` is `len(contents)`. -/
structure UploadInput where
  filename : String
  content_type : String
  contents_size : Nat
  pdfParseOutcome : Option (List String)
  geminiOutcome : Option String
  deriving Repr, DecidableEq

/-- Result of the upload endpoint: HTTP status, whether the local PyPDF2
parse was attempted, whether the remote Gemini transcription call was
issued, and the resulting store. -/
structure UploadResult where
  status : Nat
  localInvoked : Bool
  remoteInvoked : Bool
  store : Store
  deriving Repr, DecidableEq

/-- The document record inserted by a successful upload (`DocumentUpload(...)`
with `extracted_text` filled in; derived fields default to `None`). -/
def mkDocument (inp : UploadInput) (freshId ts : String) (text : String) : Document :=
  { id := freshId
    filename := inp.filename
    content_type := inp.content_type
    file_size := inp.contents_size
    extracted_text := some text
    summary_text := none
    summary_type := none
    mindmap_schema := none
    schema_type := none
    created_at := ts
    updated_at := ts }

/-- Shared tail of the upload endpoint after extraction: `if not
extracted_text: raise 400`, otherwise insert the document and return 200. -/
def uploadFinish (store : Store) (inp : UploadInput) (freshId ts : String)
    (localInvoked remoteInvoked : Bool) (extracted_text : String) : UploadResult :=
  if extracted_text = "" then
    { status := 400, localInvoked := localInvoked, remoteInvoked := remoteInvoked, store := store }
  else
    { status := 200, localInvoked := localInvoked, remoteInvoked := remoteInvoked,
      store := { store with
        documents := store.documents ++ [mkDocument inp freshId ts extracted_text] } }

/-- POST /upload (`upload_document`, server.py lines 250-315): reject files
over 100MB with 413; for `application/pdf` try the local parse and fall back
to the remote transcription call when the result is empty or its stripped
length is under 50; for `image/*` go straight to the remote call; reject any
other content type with 400.  A remote-call exception surfaces as 500
(raised inside `extract_text_with_gemini` and re-raised by the handler). -/
def upload_document (store : Store) (inp : UploadInput) (freshId ts : String) : UploadResult :=
  if inp.contents_size > MAX_UPLOAD_SIZE then
    { status := 413, localInvoked := false, remoteInvoked := false, store := store }
  else if inp.content_type = "application/pdf" then
    if extract_text_from_pdf inp.pdfParseOutcome = "" ∨
        (pyStrip (extract_text_from_pdf inp.pdfParseOutcome)).length < 50 then
      match inp.geminiOutcome with
      | none => { status := 500, localInvoked := true, remoteInvoked := true, store := store }
      | some t => uploadFinish store inp freshId ts true true t
    else
      uploadFinish store inp freshId ts true false (extract_text_from_pdf inp.pdfParseOutcome)
  else if strStartsWith inp.content_type "image/" then
    match inp.geminiOutcome with
    | none => { status := 500, localInvoked := false, remoteInvoked := true, store := store }
    | some t => uploadFinish store inp freshId ts false true t
  else
    { status := 400, localInvoked := false, remoteInvoked := false, store := store }

/-- Mongo `update_one({"id": docId}, {"$set": ...})`: apply `f` to the first
document whose `id` field matches, leave everything else in place. -/
def updateFirst (docs : List Document) (docId : String) (f : Document → Document) :
    List Document :=
  match docs with
  | [] => []
  | d :: rest => if d.id == docId then f d :: rest else d :: updateFirst rest docId f

/-- Result of the two generation endpoints: HTTP status, whether the remote
Gemini generation call was issued, and the resulting store. -/
structure GenResult where
  status : Nat
  remoteInvoked : Bool
  store : Store
  deriving Repr, DecidableEq

/-- The `$set` document written by `generate_summary` (server.py lines
336-343): only `summary_text`, `summary_type` and `updated_at`. -/
def summaryWrite (summary s_type ts : String) (d : Document) : Document :=
  { d with summary_text := some summary, summary_type := some s_type, updated_at := ts }

/-- The `$set` document written by `generate_schema` (server.py lines
376-383): only `mindmap_schema`, `schema_type` and `updated_at`. -/
def schemaWrite (schemaText s_type ts : String) (d : Document) : Document :=
  { d with mindmap_schema := some schemaText, schema_type := some s_type, updated_at := ts }

/-- POST /generate-summary (`generate_summary`, server.py lines 317-356):
404 when the document is not found, 400 when its extracted text is missing
or empty (never calling the remote generator), otherwise call the remote
generator (`genOutcome`; `none` is an exception surfacing as 500) and on
success persist the summary fields. -/
def generate_summary (store : Store) (req : SummaryRequest) (genOutcome : Option String)
    (ts : String) : GenResult :=
  match store.documents.find? (fun d => d.id == req.document_id) with
  | none => { status := 404, remoteInvoked := false, store := store }
  | some document =>
    if truthy document.extracted_text then
      match genOutcome with
      | none => { status := 500, remoteInvoked := true, store := store }
      | some summary =>
        { status := 200, remoteInvoked := true,
          store := { store with
            documents := updateFirst store.documents req.document_id
              (summaryWrite summary req.summary_type ts) } }
    else
      { status := 400, remoteInvoked := false, store := store }

/-- POST /generate-schema (`generate_schema`, server.py lines 358-395):
same shape as `generate_summary`, writing the schema fields instead. -/
def generate_schema (store : Store) (req : SchemaRequest) (genOutcome : Option String)
    (ts : String) : GenResult :=
  match store.documents.find? (fun d => d.id == req.document_id) with
  | none => { status := 404, remoteInvoked := false, store := store }
  | some document =>
    if truthy document.extracted_text then
      match genOutcome with
      | none => { status := 500, remoteInvoked := true, store := store }
      | some schemaText =>
        { status := 200, remoteInvoked := true,
          store := { store with
            documents := updateFirst store.documents req.document_id
              (schemaWrite schemaText req.schema_type ts) } }
    else
      { status := 400, remoteInvoked := false, store := store }

/-- The fixed system message of the chat endpoint. -/
def baseChatSystemMessage : String :=
  "Sei un assistente AI specializzato nell\x27aiutare gli utenti con documenti e contenuti. Puoi rispondere a domande, suggerire modifiche, e fornire supporto."

/-- The document-context fragment appended to the chat system message
(server.py lines 403-406): present only when `document_id` is truthy, the
lookup succeeds, and the stored document has truthy extracted text; the
text is truncated to its first 2000 characters. -/
def chat_doc_context (store : Store) (document_id : Option String) : String :=
  match document_id with
  | none => ""
  | some i =>
    if i = "" then ""
    else
      match store.documents.find? (fun d => d.id == i) with
      | none => ""
      | some document =>
        match document.extracted_text with
        | none => ""
        | some t =>
          if t = "" then ""
          else "\n\nContesto del documento: " ++ t.take 2000 ++ "..."

/-- The caller-supplied extra-context fragment (server.py lines 409-410). -/
def chat_extra_context (context : Option String) : String :=
  match context with
  | none => ""
  | some c => if c = "" then "" else "\n\nContesto aggiuntivo: " ++ c

/-- The full system message sent to the chat model. -/
def chat_system_message (store : Store) (req : ChatRequest) : String :=
  baseChatSystemMessage ++ chat_doc_context store req.document_id
    ++ chat_extra_context req.context

/-- Result of the chat endpoint: HTTP status, the system message that was
sent to the remote model, and the resulting store. -/
structure ChatResult where
  status : Nat
  systemMessage : String
  store : Store
  deriving Repr, DecidableEq

/-- POST /chat (`chat_with_document`, server.py lines 397-439): build the
system message, issue the remote call (`genOutcome`; `none` is an exception
surfacing as 500), and on success append a `ChatMessage` record and return
200.  There is no 404 path: an unknown `document_id` just omits the
document context. -/
def chat_with_document (store : Store) (req : ChatRequest) (genOutcome : Option String)
    (freshId ts : String) : ChatResult :=
  match genOutcome with
  | none => { status := 500, systemMessage := chat_system_message store req, store := store }
  | some response =>
    { status := 200, systemMessage := chat_system_message store req,
      store := { store with
        chat_messages := store.chat_messages ++
          [{ id := freshId, document_id := req.document_id, message := req.message,
             response := response, created_at := ts }] } }

/-- Field selection of the export endpoint (server.py lines 448-458):
`some` the selected optional field for a valid `content_type`, `none` for an
invalid one. -/
def selectContent (document : Document) (content_type : String) : Option (Option String) :=
  if content_type = "summary" then some document.summary_text
  else if content_type = "schema" then some document.mindmap_schema
  else if content_type = "full" then some document.extracted_text
  else none

/-- Result of the export endpoint: HTTP status and the (unchanged) store. -/
structure ExportResult where
  status : Nat
  store : Store
  deriving Repr, DecidableEq

/-- GET /export-pdf/{document_id} (`export_pdf`, server.py lines 441-475).
The `content_type` query parameter is optional and defaults to "summary"
(`content_type: str = "summary"`).  404 when the document is unknown, 400
for an invalid `content_type` or when the selected field is absent or
empty, 500 when the PDF renderer raises (`renderOutcome = none`), 200
otherwise. -/
def export_pdf (store : Store) (document_id : String) (content_type_query : Option String)
    (renderOutcome : Option String) : ExportResult :=
  match store.documents.find? (fun d => d.id == document_id) with
  | none => { status := 404, store := store }
  | some document =>
    match selectContent document (content_type_query.getD "summary") with
    | none => { status := 400, store := store }
    | some content =>
      if truthy content then
        match renderOutcome with
        | none => { status := 500, store := store }
        | some _ => { status := 200, store := store }
      else
        { status := 400, store := store }

/-- One row of the GET /documents response (server.py lines 481-493). -/
structure DocListEntry where
  id : String
  filename : String
  content_type : String
  file_size : Nat
  has_summary : Bool
  has_schema : Bool
  created_at : String
  text_preview : Option String
  deriving Repr, DecidableEq

/-- The per-document shaping done by GET /documents. -/
def docListEntry (doc : Document) : DocListEntry :=
  { id := doc.id
    filename := doc.filename
    content_type := doc.content_type
    file_size := doc.file_size
    has_summary := truthy doc.summary_text
    has_schema := truthy doc.mindmap_schema
    created_at := doc.created_at
    text_preview :=
      match doc.extracted_text with
      | none => none
      | some t => if t = "" then none else some (t.take 200 ++ "...") }

/-- GET /documents (`get_documents`, server.py lines 477-496):
`db.documents.find().to_list(1000)` materialises at most the first 1000
documents of the collection, then each is shaped into a row. -/
def get_documents (store : Store) : List DocListEntry :=
  (store.documents.take 1000).map docListEntry

/-- Mongo `delete_one({"id": docId})`: remove the first matching document
and report `deleted_count` (1 when something matched, else 0). -/
def delete_one (docs : List Document) (docId : String) : List Document × Nat :=
  match docs with
  | [] => ([], 0)
  | d :: rest =>
    if d.id == docId then (rest, 1)
    else
      let r := delete_one rest docId
      (d :: r.1, r.2)

/-- DELETE /document/{document_id} (`delete_document`, server.py lines
525-547): 404 when `deleted_count == 0`, else 200.  Returns the HTTP status
and the resulting store. -/
def delete_document (store : Store) (document_id : String) : Nat × Store :=
  if (delete_one store.documents document_id).2 = 0 then (404, store)
  else (200, { store with documents := (delete_one store.documents document_id).1 })

/-! ### Concrete fixtures used by witnesses and counterexamples -/

/-- A store with no documents and no chat messages. -/
def emptyStore : Store := { documents := [], chat_messages := [] }

/-- A projection used to state that no operation touches the extracted
text: each document reduced to its identifier and extracted text. -/
def idAndText (d : Document) : String × Option String := (d.id, d.extracted_text)

/-- A page list whose concatenated text is well over the 50-character
threshold. -/
def longPages : List String :=
  ["ABCDEFGHIJKLMNOPQRSTUVWXYZ abcdefghijklmnopqrstuvwxyz 0123456789"]

/-- A PDF upload of exactly 100 * 1024 * 1024 bytes whose local parse
succeeds with plenty of text. -/
def uploadExactLimit : UploadInput :=
  { filename := "grande.pdf", content_type := "application/pdf",
    contents_size := 100 * 1024 * 1024, pdfParseOutcome := some longPages,
    geminiOutcome := some "testo remoto" }

/-- An upload one byte over the limit, with an unsupported content type. -/
def uploadOverLimitPlain : UploadInput :=
  { filename := "grande.txt", content_type := "text/plain",
    contents_size := 100 * 1024 * 1024 + 1, pdfParseOutcome := none,
    geminiOutcome := none }

/-- A small upload with an unsupported content type. -/
def uploadSmallPlain : UploadInput :=
  { filename := "nota.txt", content_type := "text/plain", contents_size := 10,
    pdfParseOutcome := none, geminiOutcome := some "testo" }

/-- A small PDF upload whose local parse raises an exception. -/
def uploadPdfParseError : UploadInput :=
  { filename := "scan.pdf", content_type := "application/pdf", contents_size := 10,
    pdfParseOutcome := none, geminiOutcome := some "testo trascritto" }

/-- A stored document with extracted text and a summary, but no schema. -/
def docWithSummary : Document :=
  { id := "d1", filename := "f.pdf", content_type := "application/pdf", file_size := 10,
    extracted_text := some "testo estratto del documento", summary_text := some "riassunto",
    summary_type := some "breve", mindmap_schema := none, schema_type := none,
    created_at := "2024-01-01T00:00:00", updated_at := "2024-01-01T00:00:00" }

/-- A stored document whose extraction never produced text. -/
def docWithoutText : Document :=
  { id := "d2", filename := "g.pdf", content_type := "application/pdf", file_size := 10,
    extracted_text := none, summary_text := none, summary_type := none,
    mindmap_schema := none, schema_type := none,
    created_at := "2024-01-02T00:00:00", updated_at := "2024-01-02T00:00:00" }

/-- A store holding `docWithSummary` alone. -/
def storeOne : Store := { documents := [docWithSummary], chat_messages := [] }

/-- A store holding `docWithoutText` alone. -/
def storeNoText : Store := { documents := [docWithoutText], chat_messages := [] }

/-- A store holding exactly 1000 copies of `docWithSummary`. -/
def storeThousand : Store :=
  { documents := List.replicate 1000 docWithSummary, chat_messages := [] }

/-- A summary request for `docWithSummary`. -/
def sampleSummaryReq : SummaryRequest :=
  { document_id := "d1", summary_type := "breve", accuracy_level := "alta" }

/-- A schema request for `docWithSummary`. -/
def sampleSchemaReq : SchemaRequest :=
  { document_id := "d1", schema_type := "brainstorming" }

/-- A summary request for `docWithoutText`. -/
def noTextSummaryReq : SummaryRequest :=
  { document_id := "d2", summary_type := "medio", accuracy_level := "standard" }

/-- A schema request for `docWithoutText`. -/
def noTextSchemaReq : SchemaRequest :=
  { document_id := "d2", schema_type := "cascata" }

/-- A chat request naming a document id that is stored nowhere. -/
def orphanChatReq : ChatRequest :=
  { document_id := some "manca", message := "ciao", context := some "contesto extra" }

/-! ### Helper lemmas about the store primitives -/

theorem uploadFinish_localInvoked (store : Store) (inp : UploadInput) (freshId ts : String)
    (li ri : Bool) (t : String) :
    (uploadFinish store inp freshId ts li ri t).localInvoked = li := by
  unfold uploadFinish; split <;> rfl

theorem uploadFinish_remoteInvoked (store : Store) (inp : UploadInput) (freshId ts : String)
    (li ri : Bool) (t : String) :
    (uploadFinish store inp freshId ts li ri t).remoteInvoked = ri := by
  unfold uploadFinish; split <;> rfl

theorem mem_uploadFinish_store (store : Store) (inp : UploadInput) (freshId ts : String)
    (li ri : Bool) (t : String) (d : Document) (hd : d ∈ store.documents) :
    d ∈ (uploadFinish store inp freshId ts li ri t).store.documents := by
  unfold uploadFinish
  split
  · exact hd
  · exact List.mem_append_left _ hd

theorem mem_updateFirst {docs : List Document} {docId : String} {f : Document → Document}
    {e : Document} (h : e ∈ updateFirst docs docId f) :
    e ∈ docs ∨ ∃ d, d ∈ docs ∧ e = f d := by
  induction docs with
  | nil => simp [updateFirst] at h
  | cons a rest ih =>
    unfold updateFirst at h
    by_cases ha : a.id == docId
    · rw [if_pos ha] at h
      rcases List.mem_cons.mp h with h | h
      · exact Or.inr ⟨a, List.mem_cons_self a rest, h⟩
      · exact Or.inl (List.mem_cons_of_mem a h)
    · rw [if_neg ha] at h
      rcases List.mem_cons.mp h with h | h
      · exact Or.inl (h ▸ List.mem_cons_self a rest)
      · rcases ih h with h1 | ⟨d0, hm, he⟩
        · exact Or.inl (List.mem_cons_of_mem a h1)
        · exact Or.inr ⟨d0, List.mem_cons_of_mem a hm, he⟩

theorem find?_updateFirst (docs : List Document) (docId : String) (f : Document → Document)
    (hid : ∀ d, (f d).id = d.id) (d : Document)
    (h : docs.find? (fun x => x.id == docId) = some d) :
    (updateFirst docs docId f).find? (fun x => x.id == docId) = some (f d) := by
  induction docs with
  | nil => simp at h
  | cons a rest ih =>
    unfold updateFirst
    by_cases ha : (a.id == docId) = true
    · rw [if_pos ha]
      rw [@List.find?_cons_of_pos _ (fun x => x.id == docId) a rest ha] at h
      have hfa : ((f a).id == docId) = true := by rw [hid a]; exact ha
      rw [@List.find?_cons_of_pos _ (fun x => x.id == docId) (f a) rest hfa]
      injection h with h
      rw [h]
    · rw [if_neg ha]
      rw [@List.find?_cons_of_neg _ (fun x => x.id == docId) a rest ha] at h
      rw [@List.find?_cons_of_neg _ (fun x => x.id == docId) a
        (updateFirst rest docId f) ha]
      exact ih h

theorem map_updateFirst {β : Type} (proj : Document → β) (docs : List Document)
    (docId : String) (f : Document → Document) (hp : ∀ d, proj (f d) = proj d) :
    (updateFirst docs docId f).map proj = docs.map proj := by
  induction docs with
  | nil => rfl
  | cons a rest ih =>
    unfold updateFirst
    split
    · simp [hp]
    · simp [ih]

theorem delete_one_countP_zero (docs : List Document) (docId : String)
    (h : docs.countP (fun d => d.id == docId) = 0) :
    delete_one docs docId = (docs, 0) := by
  induction docs with
  | nil => rfl
  | cons a rest ih =>
    rw [List.countP_cons] at h
    by_cases ha : (a.id == docId) = true
    · simp only [ha, if_true] at h
      exact absurd h (by omega)
    · simp only [ha, if_false] at h
      unfold delete_one
      rw [if_neg ha, ih h]

theorem delete_one_countP_one (docs : List Document) (docId : String)
    (h : docs.countP (fun d => d.id == docId) = 1) :
    (delete_one docs docId).2 = 1 ∧
      (delete_one docs docId).1.countP (fun d => d.id == docId) = 0 := by
  induction docs with
  | nil =>
    rw [List.countP_nil] at h
    exact absurd h (by omega)
  | cons a rest ih =>
    rw [List.countP_cons] at h
    by_cases ha : (a.id == docId) = true
    · simp only [ha, if_true] at h
      have hrest : rest.countP (fun d => d.id == docId) = 0 := by omega
      unfold delete_one
      rw [if_pos ha]
      exact ⟨rfl, hrest⟩
    · simp only [ha, if_false] at h
      unfold delete_one
      rw [if_neg ha]
      rcases ih h with ⟨h1, h2⟩
      refine ⟨h1, ?_⟩
      rw [List.countP_cons]
      simp only [ha, if_false]
      simpa using h2

/-! ### Claim theorems -/

/-- C1: for a PDF upload that passes the size check, the remote
transcription call is issued exactly when the local structural parse result
is empty or its stripped length is under 50 characters, and a parser
exception is swallowed into the empty string and so triggers the
fallback. -/
theorem upload_pdf_remote_fallback_iff (store : Store) (inp : UploadInput)
    (freshId ts : String) (hct : inp.content_type = "application/pdf")
    (hsz : inp.contents_size ≤ MAX_UPLOAD_SIZE) :
    ((upload_document store inp freshId ts).remoteInvoked = true ↔
      extract_text_from_pdf inp.pdfParseOutcome = "" ∨
        (pyStrip (extract_text_from_pdf inp.pdfParseOutcome)).length < 50) ∧
    (inp.pdfParseOutcome = none →
      extract_text_from_pdf inp.pdfParseOutcome = "" ∧
      (upload_document store inp freshId ts).remoteInvoked = true) := by
  have hsz' : ¬ inp.contents_size > MAX_UPLOAD_SIZE := not_lt.mpr hsz
  have key : (upload_document store inp freshId ts).remoteInvoked = true ↔
      extract_text_from_pdf inp.pdfParseOutcome = "" ∨
        (pyStrip (extract_text_from_pdf inp.pdfParseOutcome)).length < 50 := by
    unfold upload_document
    rw [if_neg hsz', if_pos hct]
    by_cases hc : extract_text_from_pdf inp.pdfParseOutcome = "" ∨
        (pyStrip (extract_text_from_pdf inp.pdfParseOutcome)).length < 50
    · rw [if_pos hc]
      cases inp.geminiOutcome with
      | none => exact iff_of_true rfl hc
      | some t =>
        rw [uploadFinish_remoteInvoked]
        exact iff_of_true rfl hc
    · rw [if_neg hc]
      rw [uploadFinish_remoteInvoked]
      exact iff_of_false (by simp) hc
  refine ⟨key, fun hp => ?_⟩
  have he : extract_text_from_pdf inp.pdfParseOutcome = "" := by rw [hp]; rfl
  exact ⟨he, key.mpr (Or.inl he)⟩

theorem upload_pdf_remote_fallback_iff_witness :
    extract_text_from_pdf uploadPdfParseError.pdfParseOutcome = "" ∧
    (upload_document emptyStore uploadPdfParseError "id1" "t1").remoteInvoked = true :=
  (upload_pdf_remote_fallback_iff emptyStore uploadPdfParseError "id1" "t1" rfl
    (by decide)).2 rfl

/-- C3 (counterexample): an upload of exactly 100 * 1024 * 1024 bytes with
content type application/pdf passes the strict size check, invokes the
local extraction, and returns 200 rather than 413 or 400. -/
theorem upload_exact_limit_counterexample :
    (upload_document emptyStore uploadExactLimit "id1" "t1").status = 200 ∧
    (upload_document emptyStore uploadExactLimit "id1" "t1").localInvoked = true ∧
    (upload_document emptyStore uploadExactLimit "id1" "t1").status ≠ 413 ∧
    (upload_document emptyStore uploadExactLimit "id1" "t1").status ≠ 400 :=
  ⟨by decide, by decide, by decide, by decide⟩

/-- C3 (amended): an upload strictly larger than 100 * 1024 * 1024 bytes
returns 413 without invoking the local parser or the remote call, leaving
the store unchanged. -/
theorem upload_over_limit_413 (store : Store) (inp : UploadInput) (freshId ts : String)
    (h : MAX_UPLOAD_SIZE < inp.contents_size) :
    (upload_document store inp freshId ts).status = 413 ∧
    (upload_document store inp freshId ts).localInvoked = false ∧
    (upload_document store inp freshId ts).remoteInvoked = false ∧
    (upload_document store inp freshId ts).store = store := by
  unfold upload_document
  rw [if_pos h]
  exact ⟨rfl, rfl, rfl, rfl⟩

theorem upload_over_limit_413_witness :
    (upload_document emptyStore uploadOverLimitPlain "id1" "t1").status = 413 ∧
    (upload_document emptyStore uploadOverLimitPlain "id1" "t1").localInvoked = false ∧
    (upload_document emptyStore uploadOverLimitPlain "id1" "t1").remoteInvoked = false ∧
    (upload_document emptyStore uploadOverLimitPlain "id1" "t1").store = emptyStore :=
  upload_over_limit_413 emptyStore uploadOverLimitPlain "id1" "t1" (by decide)

/-- C4 (counterexample): an upload with unsupported content type text/plain
but more than 100MB of content returns 413, not 400, so the original claim
fails for that byte content. -/
theorem upload_unsupported_type_counterexample :
    (upload_document emptyStore uploadOverLimitPlain "id1" "t1").status ≠ 400 ∧
    (upload_document emptyStore uploadOverLimitPlain "id1" "t1").status = 413 :=
  ⟨by decide, by decide⟩

/-- C4 (amended): an upload of at most 100 * 1024 * 1024 bytes whose
declared content type is neither application/pdf nor image/* returns 400
with no extraction call and no store change, whatever the parse and remote
outcomes would have been. -/
theorem upload_unsupported_type_400 (store : Store) (inp : UploadInput) (freshId ts : String)
    (hsz : inp.contents_size ≤ MAX_UPLOAD_SIZE)
    (hpdf : inp.content_type ≠ "application/pdf")
    (himg : strStartsWith inp.content_type "image/" = false) :
    (upload_document store inp freshId ts).status = 400 ∧
    (upload_document store inp freshId ts).localInvoked = false ∧
    (upload_document store inp freshId ts).remoteInvoked = false ∧
    (upload_document store inp freshId ts).store = store := by
  unfold upload_document
  rw [if_neg (not_lt.mpr hsz), if_neg hpdf, if_neg (by simp [himg])]
  exact ⟨rfl, rfl, rfl, rfl⟩

theorem upload_unsupported_type_400_witness :
    (upload_document emptyStore uploadSmallPlain "id1" "t1").status = 400 ∧
    (upload_document emptyStore uploadSmallPlain "id1" "t1").localInvoked = false ∧
    (upload_document emptyStore uploadSmallPlain "id1" "t1").remoteInvoked = false ∧
    (upload_document emptyStore uploadSmallPlain "id1" "t1").store = emptyStore :=
  upload_unsupported_type_400 emptyStore uploadSmallPlain "id1" "t1" (by decide)
    (by decide) (by decide)

/-- C2: a successful generate-summary writes only the summary fields and
updated_at (every document keeps its id, filename, content type, size,
extracted text, schema fields and creation time), a following successful
generate-schema on the same document writes only the schema fields and
updated_at (keeping the summary fields), and after both calls the stored
document carries both the new summary and the new schema. -/
theorem summary_and_schema_writes_independent (store : Store) (reqS : SummaryRequest)
    (reqC : SchemaRequest) (s sch ts1 ts2 : String) (d : Document)
    (hsame : reqC.document_id = reqS.document_id)
    (hfind : store.documents.find? (fun x => x.id == reqS.document_id) = some d)
    (htext : truthy d.extracted_text = true) :
    (generate_summary store reqS (some s) ts1).status = 200 ∧
    (∀ e ∈ (generate_summary store reqS (some s) ts1).store.documents,
      ∃ d0, d0 ∈ store.documents ∧ e.id = d0.id ∧ e.filename = d0.filename ∧
        e.content_type = d0.content_type ∧ e.file_size = d0.file_size ∧
        e.extracted_text = d0.extracted_text ∧ e.mindmap_schema = d0.mindmap_schema ∧
        e.schema_type = d0.schema_type ∧ e.created_at = d0.created_at) ∧
    (generate_schema (generate_summary store reqS (some s) ts1).store reqC
        (some sch) ts2).status = 200 ∧
    (∀ e ∈ (generate_schema (generate_summary store reqS (some s) ts1).store reqC
        (some sch) ts2).store.documents,
      ∃ d1, d1 ∈ (generate_summary store reqS (some s) ts1).store.documents ∧
        e.id = d1.id ∧ e.filename = d1.filename ∧ e.content_type = d1.content_type ∧
        e.file_size = d1.file_size ∧ e.extracted_text = d1.extracted_text ∧
        e.summary_text = d1.summary_text ∧ e.summary_type = d1.summary_type ∧
        e.created_at = d1.created_at) ∧
    ((generate_schema (generate_summary store reqS (some s) ts1).store reqC
        (some sch) ts2).store.documents.find? (fun x => x.id == reqS.document_id)
      = some (schemaWrite sch reqC.schema_type ts2
          (summaryWrite s reqS.summary_type ts1 d))) := by
  have h1 : generate_summary store reqS (some s) ts1 =
      { status := 200, remoteInvoked := true,
        store := { store with documents := updateFirst store.documents reqS.document_id (summaryWrite s reqS.summary_type ts1) } } := by
    unfold generate_summary
    simp only [hfind, htext, if_true]
  have hfind1 : (updateFirst store.documents reqS.document_id
        (summaryWrite s reqS.summary_type ts1)).find? (fun x => x.id == reqS.document_id)
      = some (summaryWrite s reqS.summary_type ts1 d) :=
    find?_updateFirst store.documents reqS.document_id
      (summaryWrite s reqS.summary_type ts1) (fun _ => rfl) d hfind
  have htext1 : truthy (summaryWrite s reqS.summary_type ts1 d).extracted_text = true := htext
  have h2 : generate_schema (generate_summary store reqS (some s) ts1).store reqC
        (some sch) ts2 =
      { status := 200, remoteInvoked := true,
        store := { store with documents := updateFirst (updateFirst store.documents reqS.document_id (summaryWrite s reqS.summary_type ts1)) reqS.document_id (schemaWrite sch reqC.schema_type ts2) } } := by
    rw [h1]
    unfold generate_schema
    simp only [hsame, hfind1, htext1, if_true]
  refine ⟨by rw [h1], ?_, by rw [h2], ?_, ?_⟩
  · intro e he
    rw [h1] at he
    rcases mem_updateFirst he with h | ⟨d0, hm, rfl⟩
    · exact ⟨e, h, rfl, rfl, rfl, rfl, rfl, rfl, rfl, rfl⟩
    · exact ⟨d0, hm, rfl, rfl, rfl, rfl, rfl, rfl, rfl, rfl⟩
  · intro e he
    rw [h2] at he
    rw [h1]
    rcases mem_updateFirst he with h | ⟨d1, hm, rfl⟩
    · exact ⟨e, h, rfl, rfl, rfl, rfl, rfl, rfl, rfl, rfl⟩
    · exact ⟨d1, hm, rfl, rfl, rfl, rfl, rfl, rfl, rfl, rfl⟩
  · simp only [h2]
    exact find?_updateFirst
      (updateFirst store.documents reqS.document_id (summaryWrite s reqS.summary_type ts1))
      reqS.document_id (schemaWrite sch reqC.schema_type ts2) (fun _ => rfl)
      (summaryWrite s reqS.summary_type ts1 d) hfind1

theorem summary_and_schema_writes_independent_witness :
    (generate_summary storeOne sampleSummaryReq (some "nuovo riassunto") "t1").status = 200 ∧
    ((generate_schema (generate_summary storeOne sampleSummaryReq
        (some "nuovo riassunto") "t1").store sampleSchemaReq
        (some "nuovo schema") "t2").store.documents.find?
        (fun x => x.id == sampleSummaryReq.document_id)
      = some (schemaWrite "nuovo schema" sampleSchemaReq.schema_type "t2"
          (summaryWrite "nuovo riassunto" sampleSummaryReq.summary_type "t1"
            docWithSummary))) :=
  ⟨(summary_and_schema_writes_independent storeOne sampleSummaryReq sampleSchemaReq
      "nuovo riassunto" "nuovo schema" "t1" "t2" docWithSummary rfl rfl (by decide)).1,
   (summary_and_schema_writes_independent storeOne sampleSummaryReq sampleSchemaReq
      "nuovo riassunto" "nuovo schema" "t1" "t2" docWithSummary rfl rfl (by decide)).2.2.2.2⟩

/-- C5: when a stored document has no extracted text (absent or empty),
generate-summary and generate-schema both return 400, never issue the
remote generation call, and leave the store unchanged. -/
theorem generate_without_text_400 (store : Store) (reqS : SummaryRequest)
    (reqC : SchemaRequest) (genS genC : Option String) (ts1 ts2 : String)
    (dS dC : Document)
    (hfindS : store.documents.find? (fun x => x.id == reqS.document_id) = some dS)
    (htS : truthy dS.extracted_text = false)
    (hfindC : store.documents.find? (fun x => x.id == reqC.document_id) = some dC)
    (htC : truthy dC.extracted_text = false) :
    (generate_summary store reqS genS ts1).status = 400 ∧
    (generate_summary store reqS genS ts1).remoteInvoked = false ∧
    (generate_summary store reqS genS ts1).store = store ∧
    (generate_schema store reqC genC ts2).status = 400 ∧
    (generate_schema store reqC genC ts2).remoteInvoked = false ∧
    (generate_schema store reqC genC ts2).store = store := by
  unfold generate_summary generate_schema
  simp [hfindS, hfindC, htS, htC]

theorem generate_without_text_400_witness :
    (generate_summary storeNoText noTextSummaryReq (some "testo generato") "t1").status = 400 ∧
    (generate_summary storeNoText noTextSummaryReq (some "testo generato") "t1").remoteInvoked = false ∧
    (generate_summary storeNoText noTextSummaryReq (some "testo generato") "t1").store = storeNoText ∧
    (generate_schema storeNoText noTextSchemaReq (some "testo generato") "t2").status = 400 ∧
    (generate_schema storeNoText noTextSchemaReq (some "testo generato") "t2").remoteInvoked = false ∧
    (generate_schema storeNoText noTextSchemaReq (some "testo generato") "t2").store = storeNoText :=
  generate_without_text_400 storeNoText noTextSummaryReq noTextSchemaReq
    (some "testo generato") (some "testo generato") "t1" "t2" docWithoutText docWithoutText
    rfl rfl rfl rfl

/-- C6 (counterexample): an export-pdf request with the content_type query
parameter missing does not return 400: the parameter defaults to summary,
and on a document with a non-empty summary the request succeeds with
200. -/
theorem export_pdf_missing_content_type_counterexample :
    (export_pdf storeOne "d1" none (some "percorso.pdf")).status = 200 ∧
    (export_pdf storeOne "d1" none (some "percorso.pdf")).status ≠ 400 :=
  ⟨by decide, by decide⟩

/-- C6 (amended): an unknown document id yields 404; a present but invalid
content_type (not summary, schema or full) yields 400 on an existing
document; a valid or defaulted content_type whose selected field is absent
or empty yields 400; a missing content_type defaults to summary. -/
theorem export_pdf_status_errors (store : Store) (docId : String) (ctq : Option String)
    (renderOutcome : Option String) :
    (store.documents.find? (fun x => x.id == docId) = none →
      (export_pdf store docId ctq renderOutcome).status = 404) ∧
    (∀ d, store.documents.find? (fun x => x.id == docId) = some d →
      ∀ ct, ctq = some ct → ct ≠ "summary" → ct ≠ "schema" → ct ≠ "full" →
        (export_pdf store docId ctq renderOutcome).status = 400) ∧
    (∀ d, store.documents.find? (fun x => x.id == docId) = some d →
      ∀ content, selectContent d (ctq.getD "summary") = some content →
        truthy content = false →
        (export_pdf store docId ctq renderOutcome).status = 400) := by
  refine ⟨fun hf => ?_, fun d hf ct hct h1 h2 h3 => ?_, fun d hf content hsel ht => ?_⟩
  · unfold export_pdf
    rw [hf]
  · have hsel : selectContent d (ctq.getD "summary") = none := by
      rw [hct]
      unfold selectContent
      simp only [Option.getD_some]
      rw [if_neg h1, if_neg h2, if_neg h3]
    unfold export_pdf
    simp only [hf, hsel]
  · unfold export_pdf
    simp [hf, hsel, ht]

theorem export_pdf_status_errors_witness :
    (export_pdf emptyStore "dX" (some "summary") (some "percorso.pdf")).status = 404 ∧
    (export_pdf storeOne "d1" (some "sbagliato") (some "percorso.pdf")).status = 400 ∧
    (export_pdf storeOne "d1" (some "schema") (some "percorso.pdf")).status = 400 :=
  ⟨(export_pdf_status_errors emptyStore "dX" (some "summary") (some "percorso.pdf")).1 rfl,
   (export_pdf_status_errors storeOne "d1" (some "sbagliato") (some "percorso.pdf")).2.1
     docWithSummary rfl "sbagliato" rfl (by decide) (by decide) (by decide),
   (export_pdf_status_errors storeOne "d1" (some "schema") (some "percorso.pdf")).2.2
     docWithSummary rfl none rfl rfl⟩

/-- C7: no operation other than deletion touches extracted text: both
generation endpoints preserve every stored document's id and extracted
text, chat and export leave the documents collection untouched, and upload
keeps every existing document. -/
theorem extracted_text_never_cleared (store : Store) (reqS : SummaryRequest)
    (reqC : SchemaRequest) (reqChat : ChatRequest) (genS genC genChat : Option String)
    (ts fid : String) (docId : String) (ctq renderOutcome : Option String)
    (inp : UploadInput) :
    (generate_summary store reqS genS ts).store.documents.map idAndText
        = store.documents.map idAndText ∧
    (generate_schema store reqC genC ts).store.documents.map idAndText
        = store.documents.map idAndText ∧
    (chat_with_document store reqChat genChat fid ts).store.documents = store.documents ∧
    (export_pdf store docId ctq renderOutcome).store.documents = store.documents ∧
    (∀ d ∈ store.documents, d ∈ (upload_document store inp fid ts).store.documents) := by
  refine ⟨?_, ?_, ?_, ?_, ?_⟩
  · rcases hf : store.documents.find? (fun x => x.id == reqS.document_id) with _ | doc
    · unfold generate_summary
      rw [hf]
    · by_cases ht : truthy doc.extracted_text = true
      · cases genS with
        | none =>
          unfold generate_summary
          simp [hf, ht]
        | some s =>
          unfold generate_summary
          simp only [hf, ht, if_true]
          exact map_updateFirst idAndText store.documents reqS.document_id
            (summaryWrite s reqS.summary_type ts) (fun _ => rfl)
      · unfold generate_summary
        simp [hf, ht]
  · rcases hf : store.documents.find? (fun x => x.id == reqC.document_id) with _ | doc
    · unfold generate_schema
      rw [hf]
    · by_cases ht : truthy doc.extracted_text = true
      · cases genC with
        | none =>
          unfold generate_schema
          simp [hf, ht]
        | some sch =>
          unfold generate_schema
          simp only [hf, ht, if_true]
          exact map_updateFirst idAndText store.documents reqC.document_id
            (schemaWrite sch reqC.schema_type ts) (fun _ => rfl)
      · unfold generate_schema
        simp [hf, ht]
  · unfold chat_with_document
    cases genChat <;> rfl
  · rcases hf : store.documents.find? (fun x => x.id == docId) with _ | doc
    · unfold export_pdf
      rw [hf]
    · rcases hs : selectContent doc (ctq.getD "summary") with _ | content
      · unfold export_pdf
        simp [hf, hs]
      · by_cases ht : truthy content = true
        · cases renderOutcome with
          | none =>
            unfold export_pdf
            simp [hf, hs, ht]
          | some p =>
            unfold export_pdf
            simp [hf, hs, ht]
        · unfold export_pdf
          simp [hf, hs, ht]
  · intro d hd
    unfold upload_document
    by_cases hb : inp.contents_size > MAX_UPLOAD_SIZE
    · rw [if_pos hb]; exact hd
    · rw [if_neg hb]
      by_cases hp : inp.content_type = "application/pdf"
      · rw [if_pos hp]
        by_cases hc : extract_text_from_pdf inp.pdfParseOutcome = "" ∨
            (pyStrip (extract_text_from_pdf inp.pdfParseOutcome)).length < 50
        · rw [if_pos hc]
          cases inp.geminiOutcome with
          | none => exact hd
          | some t => exact mem_uploadFinish_store store inp fid ts true true t d hd
        · rw [if_neg hc]
          exact mem_uploadFinish_store store inp fid ts true false _ d hd
      · rw [if_neg hp]
        by_cases hi : strStartsWith inp.content_type "image/" = true
        · rw [if_pos hi]
          cases inp.geminiOutcome with
          | none => exact hd
          | some t => exact mem_uploadFinish_store store inp fid ts false true t d hd
        · rw [if_neg hi]; exact hd

/-- C8: when a document id occurs exactly once in the store, deleting it
returns 200, and deleting it again on the resulting store returns 404
because zero rows are deleted. -/
theorem delete_document_twice (store : Store) (docId : String)
    (h : store.documents.countP (fun d => d.id == docId) = 1) :
    (delete_document store docId).1 = 200 ∧
    (delete_document (delete_document store docId).2 docId).1 = 404 := by
  rcases delete_one_countP_one store.documents docId h with ⟨h1, h2⟩
  have hfst : delete_document store docId =
      (200, { store with documents := (delete_one store.documents docId).1 }) := by
    unfold delete_document
    rw [if_neg (by rw [h1]; exact one_ne_zero)]
  refine ⟨by rw [hfst], ?_⟩
  rw [hfst]
  unfold delete_document
  have h3 : delete_one ({ store with documents := (delete_one store.documents docId).1 } : Store).documents docId
      = ((delete_one store.documents docId).1, 0) :=
    delete_one_countP_zero _ docId h2
  rw [h3]
  rfl

theorem delete_document_twice_witness :
    (delete_document storeOne "d1").1 = 200 ∧
    (delete_document (delete_document storeOne "d1").2 "d1").1 = 404 :=
  delete_document_twice storeOne "d1" (by decide)

/-- C9: the documents listing returns at most 1000 rows, and once the store
holds at least 1000 documents, any documents appended beyond them do not
change the listing at all. -/
theorem get_documents_caps_at_1000 (store : Store) (extra : List Document)
    (h : 1000 ≤ store.documents.length) :
    (get_documents store).length ≤ 1000 ∧
    get_documents { store with documents := store.documents ++ extra }
      = get_documents store := by
  constructor
  · unfold get_documents
    rw [List.length_map, List.length_take]
    exact min_le_left _ _
  · unfold get_documents
    rw [List.take_append_of_le_length h]

theorem get_documents_caps_at_1000_witness :
    (get_documents storeThousand).length ≤ 1000 ∧
    get_documents { storeThousand with documents := storeThousand.documents ++ [docWithoutText] }
      = get_documents storeThousand :=
  get_documents_caps_at_1000 storeThousand [docWithoutText]
    (List.length_replicate 1000 docWithSummary).ge

/-- C10: a chat request whose document_id matches no stored document is not
rejected with 404: the system message is exactly the one built with no
document context, and on remote success the endpoint returns 200 and
appends the chat-turn record. -/
theorem chat_unknown_document_proceeds (store : Store) (req : ChatRequest)
    (genOutcome : Option String) (freshId ts : String) (did : String)
    (hdid : req.document_id = some did)
    (hfind : store.documents.find? (fun d => d.id == did) = none) :
    (chat_with_document store req genOutcome freshId ts).status ≠ 404 ∧
    (chat_with_document store req genOutcome freshId ts).systemMessage
      = (chat_with_document store { req with document_id := none } genOutcome
          freshId ts).systemMessage ∧
    (∀ response, genOutcome = some response →
      (chat_with_document store req genOutcome freshId ts).status = 200 ∧
      (chat_with_document store req genOutcome freshId ts).store.chat_messages
        = store.chat_messages ++
          [{ id := freshId, document_id := req.document_id, message := req.message,
             response := response, created_at := ts }]) := by
  have hctx : chat_doc_context store req.document_id = "" := by
    rw [hdid]
    by_cases hi : did = ""
    · simp [chat_doc_context, hi]
    · simp [chat_doc_context, hi, hfind]
  have hmsg : chat_system_message store req
      = chat_system_message store { req with document_id := none } := by
    unfold chat_system_message
    rw [hctx]
    rfl
  refine ⟨?_, ?_, ?_⟩
  · cases genOutcome with
    | none =>
      unfold chat_with_document
      simp
    | some r =>
      unfold chat_with_document
      simp
  · cases genOutcome with
    | none => exact hmsg
    | some r => exact hmsg
  · intro response hr
    subst hr
    exact ⟨rfl, rfl⟩

theorem chat_unknown_document_proceeds_witness :
    (chat_with_document emptyStore orphanChatReq (some "risposta") "c1" "t1").status = 200 ∧
    (chat_with_document emptyStore orphanChatReq (some "risposta") "c1" "t1").store.chat_messages
      = emptyStore.chat_messages ++
        [{ id := "c1", document_id := orphanChatReq.document_id,
           message := orphanChatReq.message, response := "risposta", created_at := "t1" }] :=
  (chat_unknown_document_proceeds emptyStore orphanChatReq (some "risposta") "c1" "t1"
    "manca" rfl rfl).2.2 "risposta" rfl

theorem extracted_text_never_cleared_witness :
    (generate_summary storeOne sampleSummaryReq (some "nuovo") "t3").store.documents.map idAndText
      = storeOne.documents.map idAndText ∧
    docWithSummary ∈ (upload_document storeOne uploadSmallPlain "idN" "t3").store.documents :=
  ⟨(extracted_text_never_cleared storeOne sampleSummaryReq sampleSchemaReq orphanChatReq
      (some "nuovo") (some "s2") (some "s3") "t3" "idN" "d1" none none uploadSmallPlain).1,
   (extracted_text_never_cleared storeOne sampleSummaryReq sampleSchemaReq orphanChatReq
      (some "nuovo") (some "s2") (some "s3") "t3" "idN" "d1" none none
      uploadSmallPlain).2.2.2.2 docWithSummary (by decide)⟩
